import Mathlib

/-!
Verification development for the cdclient repository: a React route guard
(`src/components/ProtectedRoute.jsx`) and an Express HTTP gateway
(`backend/app.js`). Each definition below is a shallow embedding of the
corresponding JavaScript, translated clause by clause from the source.
-/

namespace CdClient

/-! ### Route guard (src/components/ProtectedRoute.jsx) -/

/-- A router location, as produced by `useLocation()`. Only the pathname is
relevant to the guard, which passes the whole object through unchanged. -/
structure Location where
  pathname : String
deriving DecidableEq, Repr

/-- What the `ProtectedRoute` component renders: the loading placeholder
`div`, a `Navigate` element (with its `to`, `state.from` and `replace`
props), or the guarded `children`. -/
inductive RenderResult (Child : Type) where
  | placeholder
  | navigate (dest : String) (fromLoc : Location) (replace : Bool)
  | children (c : Child)
deriving DecidableEq, Repr

/-- Embedding of the `ProtectedRoute` component body. `user` is the
auth-context user (`null`/`undefined` becomes `none`), `loading` the
auth-context loading flag, `location` the current location.
The JS is: `if (loading) return <spinner/>; return user ? children :
<Navigate to="/login" state=(from: location) replace />`. -/
def ProtectedRoute {User Child : Type} (child : Child)
    (user : Option User) (loading : Bool) (location : Location) :
    RenderResult Child :=
  if loading then
    .placeholder
  else
    match user with
    | some _ => .children child
    | none => .navigate "/login" location true

/-! ### CORS origin check (backend/app.js, corsOptions.origin) -/

/-- The fixed allow-list from `corsOptions.origin` in app.js. -/
def allowedOrigins : List String :=
  [ "https://cdclient-6.onrender.com"
  , "https://cdclient.vercel.app"
  , "https://jemila2.github.io"
  , "http://localhost:5173"
  , "http://localhost:3001" ]

/-- Outcome of the CORS origin callback: `callback(null, true)` or
`callback(new Error(msg))`. -/
inductive CorsDecision where
  | allow
  | reject (msg : String)
deriving DecidableEq, Repr

/-- The JS truthiness test `!origin`: true when the `Origin` header is
absent (`undefined`) or the empty string. -/
def originFalsy : Option String → Bool
  | none => true
  | some s => s = ""

/-- Embedding of the `corsOptions.origin` function:
`if (!origin || allowedOrigins.includes(origin)) callback(null, true);
else callback(new Error('Not allowed by CORS'))`. -/
def corsOriginCheck (origin : Option String) : CorsDecision :=
  if originFalsy origin || (origin.map allowedOrigins.contains).getD false then
    .allow
  else
    .reject "Not allowed by CORS"

/-! ### Startup environment check (backend/app.js, requiredEnvVars) -/

/-- The two mandatory configuration variables checked at startup. -/
def requiredEnvVars : List String := ["JWT_SECRET", "MONGODB_URI"]

/-- JS truthiness of `process.env[v]`: falsy when the variable is unset
(`undefined`) or set to the empty string. -/
def envFalsy (env : String → Option String) (v : String) : Bool :=
  match env v with
  | none => true
  | some s => s = ""

/-- Outcome of the startup check: either `process.exit(code)` fired, or
control reached the rest of the file (middleware and route wiring). -/
inductive StartupResult where
  | exited (code : Nat)
  | proceeded
deriving DecidableEq, Repr

/-- Embedding of `requiredEnvVars.forEach(env => if (!process.env[env])
process.exit(1))`: the first falsy variable aborts the process with
exit code 1; otherwise startup proceeds. -/
def startupCheck (env : String → Option String) : StartupResult :=
  match requiredEnvVars.find? (fun v => envFalsy env v) with
  | some _ => .exited 1
  | none => .proceeded

/-! ### Process shutdown handlers (backend/app.js, startServer) -/

/-- The three process-level events for which `startServer` installs
handlers. -/
inductive ProcEvent where
  | unhandledRejection
  | uncaughtException
  | sigterm
deriving DecidableEq, Repr

/-- What a handler does: whether it calls `server.close` (stop accepting
connections, drain in-flight ones), and the `process.exit` code it calls
in the close callback, if any. -/
structure ShutdownAction where
  closesServer : Bool
  exitCode : Option Nat
deriving DecidableEq, Repr

/-- Embedding of the three `process.on` handlers in `startServer`:
`unhandledRejection` and `uncaughtException` run
`server.close(() => process.exit(1))`; `SIGTERM` runs `server.close`
with a callback that only logs and never calls `process.exit`. -/
def shutdownHandler : ProcEvent → ShutdownAction
  | .unhandledRejection => { closesServer := true, exitCode := some 1 }
  | .uncaughtException => { closesServer := true, exitCode := some 1 }
  | .sigterm => { closesServer := true, exitCode := none }

/-! ### Rate limiter (backend/app.js, limiter) -/

/-- The limiter window length in milliseconds: `15 * 60 * 1000`. -/
def windowMs : Nat := 15 * 60 * 1000

/-- The limiter quota per window: `max: 100`. -/
def maxRequests : Nat := 100

/-- The fixed rejection message configured on the limiter. -/
def limiterMessage : String :=
  "Too many requests from this IP, please try again later"

/-- String prefix test, computed on the character lists so that concrete
instances evaluate (JS `startsWith`). -/
def strStartsWith (s pre : String) : Bool :=
  pre.data.isPrefixOf s.data

/-- Express mount-path matching: a middleware mounted at `mount` sees a
request iff its path equals the mount or continues it after a slash. -/
def mountMatches (mount p : String) : Bool :=
  p = mount || strStartsWith p (mount ++ "/")

/-- Per-client limiter state: the start of the current counting window
and the number of counted hits in it. -/
structure LimiterState where
  windowStart : Nat
  count : Nat
deriving DecidableEq, Repr

/-- Outcome of the limiter for one request: passed through to the routes,
or short-circuited with the fixed rate-limit message. -/
inductive LimitOutcome where
  | passed
  | limited (msg : String)
deriving DecidableEq, Repr

/-- Model of the express-rate-limit middleware as configured in app.js and
mounted at `/api` (`app.use('/api', limiter)`): requests whose path does
not match the `/api` mount are not seen by the limiter at all; for the
rest, the per-client counter (reset `windowMs` after the window opened)
is incremented, and once it exceeds `max` the request is answered with
the configured message instead of reaching the routes. -/
def rateLimitStep (s : LimiterState) (now : Nat) (p : String) :
    LimiterState × LimitOutcome :=
  if mountMatches "/api" p then
    let s0 := if s.windowStart + windowMs ≤ now
      then { windowStart := now, count := 0 }
      else s
    let s1 := { s0 with count := s0.count + 1 }
    if s1.count ≤ maxRequests then (s1, .passed)
    else (s1, .limited limiterMessage)
  else (s, .passed)

/-! ### Route dispatch (backend/app.js)

The registered handlers, in source order: `express.static('client/build')`
(line 106), the fourteen resource routers mounted under `/api/...`
(lines 125-138), `GET /api/health` (line 141), `GET /api/data` (line 159),
the `app.get('*')` catch-all (line 164), the conditional
`express.static('cdclient/build')` block and its own `get('*')`
(lines 180-185, unreachable because the first catch-all answers every
GET/HEAD request), `app.all('/api/*')` (line 205), and finally Express's
default not-found handler for requests no layer matched. -/

/-- An incoming HTTP request, reduced to the fields the dispatch logic
reads. -/
structure Request where
  method : String
  path : String
deriving DecidableEq, Repr

/-- The JSON (or file) body of a response, one constructor per way the
app builds a body. -/
inductive RespBody where
  | healthBody (status database timestamp : String) (uptime : Nat)
  | failBody (status message : String)
  | dataBody (message : String)
  | fileBody (file : String)
  | errorEnvelope (message : String)
  | invalidJson (error : String)
  | defaultNotFound (method p : String)
deriving DecidableEq, Repr

/-- An HTTP response: status code and body. -/
structure Response where
  status : Nat
  body : RespBody
deriving DecidableEq, Repr

/-- The fourteen router mount points, in registration order
(app.js lines 125-138). -/
def apiRouterMounts : List String :=
  [ "/api/auth", "/api/employee-requests", "/api/users", "/api/tasks"
  , "/api/employees", "/api/payments", "/api/orders", "/api/admin"
  , "/api/employee-orders", "/api/suppliers", "/api/purchase-orders"
  , "/api/payroll", "/api/customers", "/api/invoices" ]

/-- Express answers HEAD requests with GET handlers, so `app.get` routes
match both methods. -/
def getLike (method : String) : Bool :=
  method = "GET" || method = "HEAD"

/-- The first router whose mount point matches the request path, if any
(the request is then delegated to that resource router, which is outside
the reviewed code). -/
def routerMatch (p : String) : Option String :=
  apiRouterMounts.find? (fun m => mountMatches m p)

/-- The `statusMap` object of the `/api/health` handler: a lookup that is
defined only for readyState 0-3. -/
def statusMap (dbStatus : Nat) : Option String :=
  match dbStatus with
  | 0 => some "Disconnected"
  | 1 => some "Connected"
  | 2 => some "Connecting"
  | 3 => some "Disconnecting"
  | _ => none

/-- Embedding of the `/api/health` handler: unconditional status 200,
body with `statusMap[dbStatus] || 'Unknown'` as the database field and
`process.uptime()` (a non-negative value, modelled as `Nat`) as uptime. -/
def healthHandler (dbStatus : Nat) (timestamp : String) (uptime : Nat) :
    Response :=
  { status := 200,
    body := .healthBody "OK" ((statusMap dbStatus).getD "Unknown")
      timestamp uptime }

/-- Embedding of the `app.get('*')` catch-all (app.js line 164): API paths
get a 404 fail envelope (message without an exclamation mark); other
paths get `res.sendFile('cdclient/build/index.html')`, which succeeds with
status 200 when the bundle exists and otherwise forwards an `ENOENT`
error to the terminal error middleware, which answers
`err.statusCode || 500 = 500`. -/
def catchAllGet (bundleExists : Bool) (p : String) : Response :=
  if strStartsWith p "/api/" then
    { status := 404,
      body := .failBody "fail" ("API endpoint " ++ p ++ " not found") }
  else if bundleExists then
    { status := 200, body := .fileBody "cdclient/build/index.html" }
  else
    { status := 500, body := .errorEnvelope "ENOENT" }

/-- The `express.static('client/build')` middleware registered before the
routers (app.js line 106): it serves an existing file for GET/HEAD
requests and passes every other request through. `clientStaticFile` maps
a request path to the file the directory holds for it, if any. -/
def staticStage (clientStaticFile : String → Option String) (req : Request) :
    Option Response :=
  if getLike req.method then
    (clientStaticFile req.path).map
      (fun f => { status := 200, body := .fileBody f })
  else
    none

/-- Result of routing a request: delegated to one of the resource routers
(whose code is not part of the reviewed surface), or answered by one of
the handlers in app.js. -/
inductive DispatchResult where
  | delegated (mount : String)
  | responded (r : Response)
deriving DecidableEq, Repr

/-- Route dispatch in the registration order of app.js: the early static
middleware, the resource routers, `/api/health`, `/api/data`, the GET
catch-all, the `app.all('/api/*')` 404 handler, and Express's default
not-found handler for anything left. The conditional static block of
lines 180-185 is unreachable (every GET/HEAD request is consumed by the
catch-all registered before it) and therefore contributes no branch. -/
def dispatch (clientStaticFile : String → Option String) (bundleExists : Bool)
    (dbStatus uptime : Nat) (timestamp : String) (req : Request) :
    DispatchResult :=
  match staticStage clientStaticFile req with
  | some r => .responded r
  | none =>
    match routerMatch req.path with
    | some m => .delegated m
    | none =>
      if getLike req.method ∧ req.path = "/api/health" then
        .responded (healthHandler dbStatus timestamp uptime)
      else if getLike req.method ∧ req.path = "/api/data" then
        .responded { status := 200, body := .dataBody "API response" }
      else if getLike req.method then
        .responded (catchAllGet bundleExists req.path)
      else if strStartsWith req.path "/api/" then
        .responded ⟨404, .failBody "fail"
          ("API endpoint " ++ req.path ++ " not found!")⟩
      else
        .responded ⟨404, .defaultNotFound req.method req.path⟩

/-- Outcome of the body-parsing stage composed with dispatch: either the
`express.json` verify callback rejected the body (no route handler runs),
or the request proceeded to routing. -/
inductive PipelineOutcome where
  | rejectedInvalidJson (r : Response)
  | dispatched (d : DispatchResult)
deriving DecidableEq, Repr

/-- Embedding of the `express.json` stage (app.js lines 79-89) composed
with dispatch. `parses` stands for `JSON.parse` succeeding on the raw
buffer; `jsonBody` is the request body presented to the JSON parser
(`none` when the request carries no JSON body, in which case the parser
does not run). On a parse failure the verify callback answers
`res.status(400).json` with the fixed error and throws, so routing never
runs. -/
def appPipeline (parses : String → Bool) (jsonBody : Option String)
    (clientStaticFile : String → Option String) (bundleExists : Bool)
    (dbStatus uptime : Nat) (timestamp : String) (req : Request) :
    PipelineOutcome :=
  match jsonBody with
  | some b =>
    if parses b then
      .dispatched
        (dispatch clientStaticFile bundleExists dbStatus uptime timestamp req)
    else
      .rejectedInvalidJson { status := 400, body := .invalidJson "Invalid JSON" }
  | none =>
    .dispatched
      (dispatch clientStaticFile bundleExists dbStatus uptime timestamp req)

/-- A static-directory map for a directory with no files: every lookup
misses. -/
def noStatic : String → Option String := fun _ => none

end CdClient

namespace CdClient

/-- C1: the ProtectedRoute component is a three-way branch: with
`loading = true` it renders only the placeholder; with `loading = false`
and no user it renders a redirect to `/login` carrying the attempted
location in the navigation state (with `replace`); with `loading = false`
and a user it renders the guarded children. -/
theorem protectedRoute_three_way_branch {User Child : Type}
    (child : Child) (loc : Location) :
    (∀ u : Option User, ProtectedRoute child u true loc = .placeholder)
    ∧ ProtectedRoute child (none : Option User) false loc
        = .navigate "/login" loc true
    ∧ ∀ x : User, ProtectedRoute child (some x) false loc = .children child := by
  refine ⟨fun u => rfl, rfl, fun x => rfl⟩

/-- Counterexample to C2 as stated: a request declaring the empty string
as its origin is accepted by the check, although the empty string is
neither an absent origin nor one of the five allow-listed origins
(JS `!origin` is also true for `""`). -/
theorem corsOriginCheck_empty_string_accepted :
    corsOriginCheck (some "") = .allow
    ∧ (some "" : Option String) ≠ none
    ∧ allowedOrigins.contains "" = false := by
  refine ⟨rfl, by simp, by decide⟩

/-- C2 amended: the CORS origin check accepts a connection if and only if
the declared origin is absent, empty, or exactly one of the five origins
in the fixed allow-list; every other origin is rejected by invoking the
callback with the error `Not allowed by CORS`. -/
theorem corsOriginCheck_characterization (origin : Option String) :
    (corsOriginCheck origin = .allow ↔
      origin = none ∨ origin = some ""
        ∨ ∃ s, origin = some s ∧ s ∈ allowedOrigins)
    ∧ (corsOriginCheck origin ≠ .allow →
        corsOriginCheck origin = .reject "Not allowed by CORS") := by
  constructor
  · cases origin with
    | none => simp [corsOriginCheck, originFalsy]
    | some s =>
      simp only [corsOriginCheck, originFalsy, Option.map_some, Option.getD_some]
      by_cases hs : s = ""
      · subst hs; simp
      · by_cases hmem : s ∈ allowedOrigins
        · simp [hs, hmem, List.elem_iff.mpr hmem]
        · constructor
          · intro h
            by_cases hc : allowedOrigins.contains s
            · exact absurd (List.elem_iff.mp hc) hmem
            · simp [hs, hc] at h
              exact absurd h hmem
          · rintro (h | h | ⟨t, ht, hmem2⟩)
            · exact absurd h (by simp)
            · exact absurd (Option.some.inj h) hs
            · exact absurd (Option.some.inj ht ▸ hmem2) hmem
  · intro h
    unfold corsOriginCheck at h ⊢
    by_cases hc : (originFalsy origin || (origin.map allowedOrigins.contains).getD false) = true
    · exact absurd (by simp [hc]) h
    · simp [hc]

/-- Witness for the C2 amended theorem at a concrete blocked origin. -/
theorem corsOriginCheck_characterization_witness :
    corsOriginCheck (some "http://evil.example") = .reject "Not allowed by CORS" :=
  (corsOriginCheck_characterization (some "http://evil.example")).2 (by decide)

/-- An environment where both required variables are set, but JWT_SECRET
is set to the empty string. -/
def envEmptySecret : String → Option String := fun v =>
  if v = "JWT_SECRET" then some ""
  else if v = "MONGODB_URI" then some "mongodb://localhost/db"
  else none

/-- An environment where both required variables are set to non-empty
values. -/
def envGood : String → Option String := fun v =>
  if v = "JWT_SECRET" then some "secret"
  else if v = "MONGODB_URI" then some "mongodb://localhost/db"
  else none

/-- The falsiness test is false exactly on variables bound to a non-empty
string. -/
theorem envFalsy_eq_false_iff (env : String → Option String) (v : String) :
    envFalsy env v = false ↔ ∃ s, env v = some s ∧ s ≠ "" := by
  unfold envFalsy
  cases h : env v with
  | none => simp
  | some s => simp

/-- Counterexample to C7 as stated: with both variables present but
JWT_SECRET bound to the empty string, the startup check still exits
(JS `!process.env[env]` is true for the empty string), so presence of
both variables does not imply the check passes. -/
theorem startupCheck_empty_var_exits :
    (envEmptySecret "JWT_SECRET").isSome = true
    ∧ (envEmptySecret "MONGODB_URI").isSome = true
    ∧ startupCheck envEmptySecret = .exited 1 := by
  refine ⟨by decide, by decide, by decide⟩

/-- C7 amended: the startup check passes if and only if every required
variable (JWT_SECRET and MONGODB_URI) is set to a non-empty string; in
every other case the process exits with status 1 (non-zero) before any
middleware or route is wired. -/
theorem startupCheck_characterization (env : String → Option String) :
    (startupCheck env = .proceeded ↔
      ∀ v ∈ requiredEnvVars, ∃ s, env v = some s ∧ s ≠ "")
    ∧ (startupCheck env ≠ .proceeded → startupCheck env = .exited 1) := by
  constructor
  · unfold startupCheck
    cases hf : requiredEnvVars.find? (fun v => envFalsy env v) with
    | some w =>
      apply iff_of_false (by simp)
      intro hall
      have hw : envFalsy env w = true := by
        have := List.find?_some hf
        simpa using this
      have hmem : w ∈ requiredEnvVars := List.mem_of_find?_eq_some hf
      obtain ⟨s, hs, hne⟩ := hall w hmem
      rw [(envFalsy_eq_false_iff env w).mpr ⟨s, hs, hne⟩] at hw
      exact absurd hw (by simp)
    | none =>
      apply iff_of_true rfl
      intro v hv
      have hnot := List.find?_eq_none.mp hf v hv
      exact (envFalsy_eq_false_iff env v).mp (by simpa using hnot)
  · unfold startupCheck
    cases hf : requiredEnvVars.find? (fun v => envFalsy env v) with
    | some w => intro _; rfl
    | none => intro h; exact absurd rfl h

/-- Witness for the C7 amended theorem: a fully populated environment
passes the check. -/
theorem startupCheck_characterization_witness :
    startupCheck envGood = .proceeded :=
  (startupCheck_characterization envGood).1.mpr (by
    intro v hv
    simp only [requiredEnvVars, List.mem_cons, List.not_mem_nil, or_false] at hv
    rcases hv with rfl | rfl
    · exact ⟨"secret", rfl, by decide⟩
    · exact ⟨"mongodb://localhost/db", rfl, by decide⟩)

/-- Counterexample to C9 as stated: the SIGTERM handler calls
`server.close`, but its close callback only logs and never calls
`process.exit`, so the process is not explicitly exited on that path. -/
theorem shutdownHandler_sigterm_no_exit :
    (shutdownHandler .sigterm).closesServer = true
    ∧ (shutdownHandler .sigterm).exitCode = none := by
  exact ⟨rfl, rfl⟩

/-- C9 amended: each of the three installed process handlers stops the
server accepting new connections and drains in-flight ones via
`server.close`; on the two abnormal paths (unhandled rejection, uncaught
exception) the close callback then exits the process with status 1
(non-zero); on SIGTERM no `process.exit` call is made. -/
theorem shutdownHandler_spec :
    (∀ e, (shutdownHandler e).closesServer = true)
    ∧ (shutdownHandler .unhandledRejection).exitCode = some 1
    ∧ (shutdownHandler .uncaughtException).exitCode = some 1
    ∧ (shutdownHandler .sigterm).exitCode = none := by
  refine ⟨fun e => ?_, rfl, rfl, rfl⟩
  cases e <;> rfl

/-- C3: once a client's counter in the current window has reached the
quota of 100, every further request in that window to a path under the
`/api` mount is answered with the fixed message
`Too many requests from this IP, please try again later`; requests whose
path is outside the `/api` mount are never counted or blocked; and the
configured window and quota are 15 minutes and 100 requests. -/
theorem limiter_quota_and_scope (s : LimiterState) (now : Nat) (p q : String) :
    (now < s.windowStart + windowMs → maxRequests ≤ s.count →
      mountMatches "/api" p = true →
      (rateLimitStep s now p).2 = .limited limiterMessage)
    ∧ (mountMatches "/api" q = false → rateLimitStep s now q = (s, .passed))
    ∧ windowMs = 15 * 60 * 1000 ∧ maxRequests = 100 := by
  refine ⟨?_, ?_, rfl, rfl⟩
  · intro hwin hcount hap
    unfold rateLimitStep
    rw [hap]
    simp only [if_pos]
    have hreset : ¬(s.windowStart + windowMs ≤ now) := by omega
    rw [if_neg hreset]
    have hover : ¬(s.count + 1 ≤ maxRequests) := by omega
    simp [hover]
  · intro hq
    unfold rateLimitStep
    rw [hq]
    simp

/-- Witness for the C3 theorem: a client at the quota inside a window is
limited on an `/api` path and passed untouched on a non-API path. -/
theorem limiter_quota_and_scope_witness :
    (rateLimitStep ⟨0, 100⟩ 1 "/api/users").2 = .limited limiterMessage
    ∧ rateLimitStep ⟨0, 100⟩ 1 "/" = (⟨0, 100⟩, .passed) :=
  ⟨(limiter_quota_and_scope ⟨0, 100⟩ 1 "/api/users" "/").1
      (by decide) (by decide) (by decide),
   (limiter_quota_and_scope ⟨0, 100⟩ 1 "/api/users" "/").2.1 (by decide)⟩

/-- Prefix tests compose: a prefix of a prefix of `p` is a prefix of
`p`. -/
theorem strStartsWith_trans {p a b : String}
    (h1 : strStartsWith p a = true) (h2 : strStartsWith a b = true) :
    strStartsWith p b = true := by
  unfold strStartsWith at h1 h2 ⊢
  rw [List.isPrefixOf_iff_prefix] at h1 h2 ⊢
  exact h2.trans h1

/-- A path that does not start with `/api/` is matched by none of the
fourteen router mounts, all of which live under `/api/`. -/
theorem routerMatch_none_of_nonapi (p : String)
    (h : strStartsWith p "/api/" = false) : routerMatch p = none := by
  unfold routerMatch
  rw [List.find?_eq_none]
  intro m hm hmm
  have hp : strStartsWith p "/api/" = true := by
    simp only [mountMatches, Bool.or_eq_true, decide_eq_true_eq] at hmm
    rcases hmm with rfl | hpre
    · fin_cases hm <;> decide
    · refine strStartsWith_trans hpre ?_
      fin_cases hm <;> decide
  simp [h] at hp

/-- C4: a request presenting a body that `JSON.parse` rejects is answered
with status 400 and the fixed error `Invalid JSON`, and routing never
runs for it (the verify callback sends the response and throws before
dispatch). -/
theorem invalid_json_short_circuits (parses : String → Bool) (b : String)
    (csf : String → Option String) (be : Bool) (db up : Nat)
    (ts : String) (req : Request) (hbad : parses b = false) :
    appPipeline parses (some b) csf be db up ts req
      = .rejectedInvalidJson ⟨400, .invalidJson "Invalid JSON"⟩
    ∧ ∀ d, appPipeline parses (some b) csf be db up ts req
        ≠ .dispatched d := by
  constructor
  · simp [appPipeline, hbad]
  · intro d
    simp [appPipeline, hbad]

/-- Witness for the C4 theorem at a concrete unparsable body. -/
theorem invalid_json_short_circuits_witness :
    appPipeline (fun s => s == "null") (some "oops") noStatic true 1 0 "t"
      ⟨"POST", "/api/orders"⟩
      = .rejectedInvalidJson ⟨400, .invalidJson "Invalid JSON"⟩ :=
  (invalid_json_short_circuits (fun s => s == "null") "oops" noStatic true 1 0
    "t" ⟨"POST", "/api/orders"⟩ (by decide)).1

/-- Counterexample to C5 as stated: for the same unmatched API path the
404 envelope is not the same for every method; the GET catch-all writes
`... not found` while the `app.all` handler reached by other methods
writes `... not found!`. -/
theorem api404_message_differs_by_method :
    dispatch noStatic true 1 0 "t" ⟨"GET", "/api/nope"⟩
      = .responded ⟨404, .failBody "fail" "API endpoint /api/nope not found"⟩
    ∧ dispatch noStatic true 1 0 "t" ⟨"POST", "/api/nope"⟩
      = .responded ⟨404, .failBody "fail" "API endpoint /api/nope not found!"⟩
    ∧ ("API endpoint /api/nope not found" : String)
        ≠ "API endpoint /api/nope not found!" := by
  refine ⟨by decide, by decide, by decide⟩

/-- C5 amended: every request to a path under `/api/` that no registered
route matches (and that no stray file in the early static directory
shadows) gets a 404 with a `fail`/`message` envelope whose message names
the unmatched path; the status and envelope shape are uniform, but the
message text depends on the method: GET (and HEAD) requests are answered
by the `app.get` catch-all without an exclamation mark, all other methods
by the `app.all` handler with one. -/
theorem api_unmatched_404 (csf : String → Option String) (be : Bool)
    (db up : Nat) (ts : String) (req : Request)
    (hstatic : csf req.path = none)
    (hapi : strStartsWith req.path "/api/" = true)
    (hrouter : routerMatch req.path = none)
    (hhealth : req.path ≠ "/api/health")
    (hdata : req.path ≠ "/api/data") :
    dispatch csf be db up ts req = .responded ⟨404,
      .failBody "fail" ("API endpoint " ++ req.path ++
        (if getLike req.method then " not found" else " not found!"))⟩ := by
  by_cases hg : getLike req.method = true
  · simp [dispatch, staticStage, catchAllGet, hg, hstatic, hrouter,
      hhealth, hdata, hapi]
  · simp [dispatch, staticStage, catchAllGet, hg, hstatic, hrouter,
      hhealth, hdata, hapi]

/-- Witness for the C5 amended theorem at a concrete non-GET request. -/
theorem api_unmatched_404_witness :
    dispatch noStatic false 0 0 "" ⟨"PUT", "/api/zzz"⟩ = .responded ⟨404,
      .failBody "fail" "API endpoint /api/zzz not found!"⟩ := by
  have h := api_unmatched_404 noStatic false 0 0 "" ⟨"PUT", "/api/zzz"⟩
    rfl (by decide) (by decide) (by decide) (by decide)
  rw [h]
  decide

/-- Counterexample to C6 as stated: at readyState 99 (mongoose's
`uninitialized` state) the health body's database field is `Unknown`,
which is not one of the four defined labels. -/
theorem health_unknown_label :
    healthHandler 99 "t" 0 = ⟨200, .healthBody "OK" "Unknown" "t" 0⟩
    ∧ "Unknown" ∉ ["Disconnected", "Connected", "Connecting", "Disconnecting"] := by
  refine ⟨rfl, by decide⟩

/-- C6 amended: the health body's database field is one of the four
defined labels whenever the readyState is 0-3, and is the fallback
`Unknown` for every other readyState value; the uptime field is the
process uptime, a non-negative quantity. -/
theorem health_database_field (db up : Nat) (ts : String) :
    ∃ label, (healthHandler db ts up).body = .healthBody "OK" label ts up
      ∧ (db < 4 →
        label ∈ ["Disconnected", "Connected", "Connecting", "Disconnecting"])
      ∧ (4 ≤ db → label = "Unknown") := by
  refine ⟨(statusMap db).getD "Unknown", rfl, ?_, ?_⟩
  · intro h
    interval_cases db <;> decide
  · intro h
    obtain ⟨n, rfl⟩ : ∃ n, db = n + 4 := ⟨db - 4, by omega⟩
    rfl

/-- Witness for the C6 amended theorem at readyState 99. -/
theorem health_database_field_witness :
    (healthHandler 99 "t" 5).body = .healthBody "OK" "Unknown" "t" 5 := by
  obtain ⟨label, hb, _, hge⟩ := health_database_field 99 5 "t"
  rw [hb, hge (by norm_num)]

/-- Counterexample to C8 as stated: a POST to an unmatched non-API path
is not served the index document even though the bundle exists; it falls
through every handler to the framework's default not-found response
(`app.get('*')` and the static middleware only answer GET/HEAD). -/
theorem nonapi_post_default_404 :
    dispatch noStatic true 1 0 "t" ⟨"POST", "/contact"⟩
      = .responded ⟨404, .defaultNotFound "POST" "/contact"⟩ := by
  decide

/-- C8 amended: every GET (or HEAD) request to an unmatched non-API path
is answered with the index document and status 200 when the bundle
exists; responses to paths under `/api/` never depend on whether the
bundle exists; and every request with another method to an unmatched
non-API path gets the framework's default not-found response instead of
the index, whatever the bundle state. -/
theorem static_fallback_spec (csf : String → Option String) (db up : Nat)
    (ts : String) (req : Request) :
    (getLike req.method = true → csf req.path = none →
      strStartsWith req.path "/api/" = false →
      dispatch csf true db up ts req
        = .responded ⟨200, .fileBody "cdclient/build/index.html"⟩)
    ∧ (strStartsWith req.path "/api/" = true →
      dispatch csf true db up ts req = dispatch csf false db up ts req)
    ∧ (∀ be, getLike req.method = false →
      strStartsWith req.path "/api/" = false →
      dispatch csf be db up ts req
        = .responded ⟨404, .defaultNotFound req.method req.path⟩) := by
  refine ⟨?_, ?_, ?_⟩
  · intro hg hstatic hnonapi
    have hh : req.path ≠ "/api/health" := by
      intro he
      rw [he] at hnonapi
      exact absurd hnonapi (by decide)
    have hd : req.path ≠ "/api/data" := by
      intro he
      rw [he] at hnonapi
      exact absurd hnonapi (by decide)
    simp [dispatch, staticStage, catchAllGet, hg, hstatic,
      routerMatch_none_of_nonapi req.path hnonapi, hh, hd, hnonapi]
  · intro hapi
    unfold dispatch
    cases hs : staticStage csf req with
    | some r => rfl
    | none =>
      cases hr : routerMatch req.path with
      | some m => rfl
      | none => split_ifs <;> simp [catchAllGet, hapi]
  · intro be hg hnonapi
    simp [dispatch, staticStage, hg,
      routerMatch_none_of_nonapi req.path hnonapi, hnonapi]

/-- Witness for the C8 amended theorem: the SPA shell for GET `/` with
the bundle present, bundle-independence of the health endpoint, and the
default not-found response for a POST to an unmatched non-API path. -/
theorem static_fallback_spec_witness :
    dispatch noStatic true 0 0 "t" ⟨"GET", "/"⟩
      = .responded ⟨200, .fileBody "cdclient/build/index.html"⟩
    ∧ dispatch noStatic true 0 0 "t" ⟨"GET", "/api/health"⟩
      = dispatch noStatic false 0 0 "t" ⟨"GET", "/api/health"⟩
    ∧ dispatch noStatic true 0 0 "t" ⟨"POST", "/about"⟩
      = .responded ⟨404, .defaultNotFound "POST" "/about"⟩ :=
  ⟨(static_fallback_spec noStatic 0 0 "t" ⟨"GET", "/"⟩).1 rfl rfl (by decide),
   (static_fallback_spec noStatic 0 0 "t" ⟨"GET", "/api/health"⟩).2.1 (by decide),
   (static_fallback_spec noStatic 0 0 "t" ⟨"POST", "/about"⟩).2.2 true
     (by decide) (by decide)⟩

/-- C10: every GET request to `/api/health` is answered with HTTP status
200 whatever the database readyState: either a stray static file of that
name is served with 200, or the health handler itself answers with its
unconditional 200. -/
theorem health_always_200 (csf : String → Option String) (be : Bool)
    (db up : Nat) (ts : String) :
    ∃ r, dispatch csf be db up ts ⟨"GET", "/api/health"⟩ = .responded r
      ∧ r.status = 200 := by
  cases hc : csf "/api/health" with
  | some f =>
    refine ⟨⟨200, .fileBody f⟩, ?_, rfl⟩
    simp [dispatch, staticStage, getLike, hc]
  | none =>
    refine ⟨healthHandler db ts up, ?_, rfl⟩
    simp [dispatch, staticStage, getLike, hc,
      show routerMatch "/api/health" = none from by decide]

end CdClient
